import Mathlib

/-!
Verification of the just-todo backend (src/backend/app): the Todo data model,
the list-query construction (sorting, validation, assignee filter), the schema
bootstrap, the seeder and the CRUD handlers, shallowly embedded from
main.py, models.py and schemas.py.
-/

namespace JustTodo

/-- A row of the todos table as it exists in the database after schema
bootstrap: the base columns declared in models.py plus the boolean columns
added by ensure_completed_column and ensure_favorite_column.  Dates are
modelled as integer day numbers, ids as naturals. -/
structure Todo where
  id : Nat
  due_date : Int
  title : String
  assignee : String
  completed : Bool
  favorite : Bool
deriving Repr, DecidableEq

/-- The attribute names mapped by the ORM class Todo in models.py: id,
due_date, title, assignee, completed.  models.py declares no favorite
column, although schemas.py and ensure_favorite_column both assume one. -/
def todoModelColumns : List String :=
  ["id", "due_date", "title", "assignee", "completed"]

/-- Error outcomes of the handlers: the two HTTP 400 errors raised by
build_order_clause, the HTTP 404 of update_todo and delete_todo, and the
TypeError raised by the SQLAlchemy declarative constructor when a keyword
argument is not a mapped attribute of the model class. -/
inductive ApiError
  | invalidSortField
  | invalidOrder
  | notFound
  | typeError
deriving Repr, DecidableEq

/-- The four sortable columns of column_map in build_order_clause. -/
inductive SortKey
  | id
  | dueDate
  | title
  | assignee
deriving Repr, DecidableEq

/-- Sort direction, from the asc and desc branches of build_order_clause. -/
inductive SortDir
  | asc
  | desc
deriving Repr, DecidableEq

/-- column_map of build_order_clause: the mapping from the sort query
parameter to a sortable column; any other string is absent from the map. -/
def column_map (sort : String) : Option SortKey :=
  if sort = "id" then some SortKey.id
  else if sort = "due_date" then some SortKey.dueDate
  else if sort = "title" then some SortKey.title
  else if sort = "assignee" then some SortKey.assignee
  else none

/-- The accepted sort values (the keys of column_map). -/
def validSorts : List String := ["id", "due_date", "title", "assignee"]

/-- The accepted order values. -/
def validOrders : List String := ["asc", "desc"]

/-- build_order_clause from main.py: reject a sort value outside column_map
with the Invalid sort field error, then an order value other than asc or
desc with the Invalid order error; otherwise return the order clause. -/
def build_order_clause (sort order : String) :
    Except ApiError (SortKey × SortDir) :=
  match column_map sort with
  | none => Except.error ApiError.invalidSortField
  | some k =>
    if order = "asc" then Except.ok (k, SortDir.asc)
    else if order = "desc" then Except.ok (k, SortDir.desc)
    else Except.error ApiError.invalidOrder

/-- Comparison of two rows on the requested sort column in the requested
direction, as the database executes the secondary ORDER BY term. -/
def fieldLE (k : SortKey) (d : SortDir) (a b : Todo) : Bool :=
  match k, d with
  | SortKey.id, SortDir.asc => decide (a.id ≤ b.id)
  | SortKey.id, SortDir.desc => decide (b.id ≤ a.id)
  | SortKey.dueDate, SortDir.asc => decide (a.due_date ≤ b.due_date)
  | SortKey.dueDate, SortDir.desc => decide (b.due_date ≤ a.due_date)
  | SortKey.title, SortDir.asc => decide (a.title ≤ b.title)
  | SortKey.title, SortDir.desc => decide (b.title ≤ a.title)
  | SortKey.assignee, SortDir.asc => decide (a.assignee ≤ b.assignee)
  | SortKey.assignee, SortDir.desc => decide (b.assignee ≤ a.assignee)

/-- The full ordering used by list_todos: ORDER BY completed ASC first
(false sorts before true), then the requested column and direction. -/
def rowLE (k : SortKey) (d : SortDir) (a b : Todo) : Bool :=
  if a.completed == b.completed then fieldLE k d a b
  else !a.completed

/-- Whether the character list needle occurs at the start of hay. -/
def charsStartWith : List Char → List Char → Bool
  | _, [] => true
  | [], _ :: _ => false
  | a :: hs, b :: ns => a == b && charsStartWith hs ns

/-- Whether the character list needle occurs contiguously anywhere in hay. -/
def charsContain : List Char → List Char → Bool
  | [], needle => charsStartWith [] needle
  | h :: t, needle => charsStartWith (h :: t) needle || charsContain t needle

/-- Modelled from the spec: the contains filter of list_todos is executed by
the database engine configured in database.py, a file of this repository
that is not under src/; following the spec it is modelled as a
case-sensitive contiguous substring test on the assignee column. -/
def strContains (hay needle : String) : Bool :=
  charsContain hay.data needle.data

/-- Python truthiness of the optional assignee query parameter: None and the
empty string are falsy, any other string is truthy. -/
def assigneeTruthy : Option String → Bool
  | none => false
  | some s => !(s == "")

/-- The WHERE clause of list_todos: applied only when the assignee parameter
is truthy, keeping rows whose assignee contains the given substring. -/
def filterRows (assignee : Option String) (store : List Todo) : List Todo :=
  match assignee with
  | none => store
  | some s => if s == "" then store else
      store.filter (fun t => strContains t.assignee s)

/-- list_todos from main.py: build the order clause (validating sort and
order), filter by the assignee parameter when truthy, and return the rows
sorted by completed ascending then the requested column and direction. -/
def list_todos (sort order : String) (assignee : Option String)
    (store : List Todo) : Except ApiError (List Todo) :=
  match build_order_clause sort order with
  | Except.error e => Except.error e
  | Except.ok (k, d) =>
      Except.ok ((filterRows assignee store).mergeSort (rowLE k d))

/-- list_todos called with no explicit query parameters: FastAPI supplies the
declared defaults Query("due_date"), Query("asc") and Query(None). -/
def list_todos_defaults (store : List Todo) : Except ApiError (List Todo) :=
  list_todos "due_date" "asc" none store

/-- A request body for create and update: the fields of TodoCreate and
TodoUpdate in schemas.py (both equal TodoBase, which includes favorite). -/
structure TodoPayload where
  due_date : Int
  title : String
  assignee : String
  completed : Bool
  favorite : Bool
deriving Repr, DecidableEq

/-- The keys of payload.model_dump() for TodoCreate and TodoUpdate, and the
keyword arguments seed_todos passes to the Todo constructor. -/
def payloadKeys : List String :=
  ["due_date", "title", "assignee", "completed", "favorite"]

/-- The check performed by the SQLAlchemy declarative constructor: every
keyword argument must be an attribute of the model class, otherwise it
raises TypeError.  models.py maps exactly todoModelColumns. -/
def todoCtorAccepts (keys : List String) : Bool :=
  keys.all (fun k => todoModelColumns.contains k)

/-- The response record of a handler: the fields of TodoOut in schemas.py. -/
structure TodoOut where
  id : Nat
  due_date : Int
  title : String
  assignee : String
  completed : Bool
  favorite : Bool
deriving Repr, DecidableEq

/-- Serialization of a stored row through TodoOut with from_attributes: the
mapped attributes are read from the instance, while favorite is not a mapped
attribute of models.py, so pydantic falls back to the schema default False
whatever the database column holds. -/
def serializeOut (t : Todo) : TodoOut :=
  { id := t.id, due_date := t.due_date, title := t.title,
    assignee := t.assignee, completed := t.completed, favorite := false }

/-- create_todo from main.py: Todo(**payload.model_dump()) passes the keys of
TodoCreate, including favorite, to the declarative constructor; since
models.py maps no favorite attribute this raises TypeError before any row is
added.  Were every key mapped, the row would be inserted with a fresh id. -/
def create_todo (p : TodoPayload) (nextId : Nat) (store : List Todo) :
    Except ApiError (Todo × List Todo) :=
  if todoCtorAccepts payloadKeys then
    let t : Todo := { id := nextId, due_date := p.due_date, title := p.title,
                      assignee := p.assignee, completed := p.completed,
                      favorite := p.favorite }
    Except.ok (t, store ++ [t])
  else Except.error ApiError.typeError

/-- The fixed assignee names of seed_todos. -/
def seedAssignees : List String :=
  ["Tanaka", "Sato", "Suzuki", "Yamada", "Kato"]

/-- The six fixed title templates of seed_todos. -/
def seedTitles : List String :=
  ["仕様書レビュー", "UI調整", "API実装", "バグ修正", "テスト追加", "ドキュメント更新"]

/-- The record seed_todos would build for 0-based index i: due date today
plus the i-th draw of the seeded stream randint(-10, 30), title cycled
through the six templates with the 1-based suffix, assignee cycled through
the five names, completed and favorite false. -/
def seedRecord (today : Int) (offsets : Nat → Int) (firstId i : Nat) : Todo :=
  { id := firstId + i
    due_date := today + offsets i
    title := (seedTitles.getD (i % 6) "") ++ " #" ++ toString (i + 1)
    assignee := seedAssignees.getD (i % 5) ""
    completed := false
    favorite := false }

/-- The emptiness probe of seed_todos: db.scalar(select(Todo).limit(1)) is
truthy exactly when the first row exists; only the first row is fetched. -/
def seedGuard (store : List Todo) : Bool :=
  !(store.take 1).isEmpty

/-- seed_todos from main.py: if the limit-1 probe finds a row, return without
touching the store; otherwise build 100 records and insert them in one
commit.  Each record is built by Todo(..., favorite=False), so the
declarative constructor checks the keyword set against the mapped columns
and raises TypeError because models.py has no favorite attribute.  The
seeded random stream is abstracted as the offsets function. -/
def seed_todos (today : Int) (offsets : Nat → Int) (store : List Todo) :
    Except ApiError (List Todo) :=
  if seedGuard store then Except.ok store
  else if todoCtorAccepts payloadKeys then
    Except.ok (store ++ (List.range 100).map (seedRecord today offsets 1))
  else Except.error ApiError.typeError

/-- db.get(Todo, todo_id): primary-key lookup, the read used by update_todo
and delete_todo and by a subsequent read of a record. -/
def get_todo (todo_id : Nat) (store : List Todo) : Option Todo :=
  store.find? (fun t => t.id == todo_id)

/-- update_todo from main.py: 404 when the id is absent; otherwise setattr
every payload key on the instance and commit.  The four mapped columns are
persisted; favorite is not a mapped attribute of models.py, so its setattr
only creates a plain in-memory attribute: the response (serialized from the
instance) shows the payload favorite, while the stored row keeps its old
favorite column value. -/
def update_todo (todo_id : Nat) (p : TodoPayload) (store : List Todo) :
    Except ApiError (TodoOut × List Todo) :=
  match get_todo todo_id store with
  | none => Except.error ApiError.notFound
  | some t =>
      let persisted : Todo :=
        { t with due_date := p.due_date, title := p.title,
                 assignee := p.assignee, completed := p.completed }
      let response : TodoOut :=
        { id := t.id, due_date := p.due_date, title := p.title,
          assignee := p.assignee, completed := p.completed,
          favorite := p.favorite }
      Except.ok (response,
        store.map (fun r => if r.id == todo_id then persisted else r))

/-- delete_todo from main.py: 404 when the id is absent (the store is left
untouched, no ok state is produced); otherwise the fetched row is deleted
and the commit removes exactly that row. -/
def delete_todo (todo_id : Nat) (store : List Todo) :
    Except ApiError (List Todo) :=
  match get_todo todo_id store with
  | none => Except.error ApiError.notFound
  | some _ => Except.ok (store.eraseP (fun t => t.id == todo_id))

/-- A cell value of the todos table, for the schema-bootstrap model. -/
inductive SqlVal
  | b (x : Bool)
  | i (n : Int)
  | s (v : String)
deriving Repr, DecidableEq

/-- The physical table state the schema bootstrap works on: the column list
reported by the inspector and the rows, each a list of named cells. -/
structure TableState where
  columns : List String
  rows : List (List (String × SqlVal))
deriving Repr, DecidableEq

/-- ALTER TABLE todos ADD COLUMN name BOOLEAN DEFAULT 0: the column is
appended to the schema and every existing row receives the default cell. -/
def addBoolColumn (name : String) (st : TableState) : TableState :=
  { columns := st.columns ++ [name]
    rows := st.rows.map (fun r => r ++ [(name, SqlVal.b false)]) }

/-- The shared shape of ensure_completed_column and ensure_favorite_column:
inspect the live column set and add the boolean column only when absent. -/
def ensure_column (name : String) (st : TableState) : TableState :=
  if st.columns.contains name then st else addBoolColumn name st

/-- ensure_completed_column from main.py. -/
def ensure_completed_column (st : TableState) : TableState :=
  ensure_column "completed" st

/-- ensure_favorite_column from main.py. -/
def ensure_favorite_column (st : TableState) : TableState :=
  ensure_column "favorite" st

/-- The startup schema bootstrap: ensure_completed_column then
ensure_favorite_column, in the order main.py runs them. -/
def bootstrapSchema (st : TableState) : TableState :=
  ensure_favorite_column (ensure_completed_column st)

/-- The cells the bootstrap appends to every existing row of st: one default
false cell per column that is absent before the run. -/
def bootExt (st : TableState) : List (String × SqlVal) :=
  (if st.columns.contains "completed" then [] else [("completed", SqlVal.b false)])
    ++ (if st.columns.contains "favorite" then [] else [("favorite", SqlVal.b false)])

/-- The comparison on the requested column is total. -/
theorem fieldLE_total (k : SortKey) (d : SortDir) (a b : Todo) :
    (fieldLE k d a b || fieldLE k d b a) = true := by
  cases k <;> cases d <;>
    simp only [fieldLE, Bool.or_eq_true, decide_eq_true_eq] <;>
    exact le_total _ _

/-- The comparison on the requested column is transitive. -/
theorem fieldLE_trans (k : SortKey) (d : SortDir) (a b c : Todo)
    (hab : fieldLE k d a b = true) (hbc : fieldLE k d b c = true) :
    fieldLE k d a c = true := by
  cases k <;> cases d <;>
    simp only [fieldLE, decide_eq_true_eq] at hab hbc ⊢ <;>
    first
    | exact le_trans hab hbc
    | exact le_trans hbc hab

/-- The full row ordering of list_todos is total. -/
theorem rowLE_total (k : SortKey) (d : SortDir) (a b : Todo) :
    (rowLE k d a b || rowLE k d b a) = true := by
  unfold rowLE
  cases ha : a.completed <;> cases hb : b.completed <;>
    simp only [ha, hb, beq_self_eq_true, if_true, if_pos, Bool.not_false,
      Bool.not_true, Bool.or_eq_true] <;>
    first
    | exact Or.inl rfl
    | exact Or.inr rfl
    | simpa [Bool.or_eq_true] using fieldLE_total k d a b

/-- The full row ordering of list_todos is transitive. -/
theorem rowLE_trans (k : SortKey) (d : SortDir) (a b c : Todo)
    (hab : rowLE k d a b = true) (hbc : rowLE k d b c = true) :
    rowLE k d a c = true := by
  unfold rowLE at hab hbc ⊢
  cases ha : a.completed <;> cases hb : b.completed <;> cases hc : c.completed <;>
    simp only [ha, hb, hc] at hab hbc ⊢ <;>
    simp at hab hbc ⊢ <;>
    exact fieldLE_trans k d a b c hab hbc

/-- A row ordered before another cannot be completed when the other is not. -/
theorem rowLE_completed (k : SortKey) (d : SortDir) (a b : Todo)
    (h : rowLE k d a b = true) (ha : a.completed = true) : b.completed = true := by
  unfold rowLE at h
  cases hb : b.completed
  · rw [ha, hb] at h
    simp at h
  · rfl

/-- Within a completed-group the row ordering is the column comparison. -/
theorem rowLE_field (k : SortKey) (d : SortDir) (a b : Todo)
    (h : rowLE k d a b = true) (hc : a.completed = b.completed) :
    fieldLE k d a b = true := by
  unfold rowLE at h
  rw [hc] at h
  simpa using h

/-- Sorting any row list with the list_todos ordering yields a permutation
whose completed=false rows all come before the completed=true rows and whose
completed-groups are internally ordered by the requested column. -/
theorem mergeSort_props (k : SortKey) (d : SortDir) (l : List Todo) :
    (l.mergeSort (rowLE k d)).Perm l ∧
    (l.mergeSort (rowLE k d)).Pairwise
      (fun a b => a.completed = true → b.completed = true) ∧
    (l.mergeSort (rowLE k d)).Pairwise
      (fun a b => a.completed = b.completed → fieldLE k d a b = true) := by
  have hsorted := @List.sorted_mergeSort Todo (rowLE k d)
    (fun a b c => rowLE_trans k d a b c) (rowLE_total k d) l
  refine ⟨List.mergeSort_perm l _, ?_, ?_⟩
  · exact hsorted.imp (fun h ha => rowLE_completed k d _ _ h ha)
  · exact hsorted.imp (fun h hc => rowLE_field k d _ _ h hc)

/-- Valid sort and order parameters always yield an order clause. -/
theorem build_ok_of_valid (sort order : String) (hs : sort ∈ validSorts)
    (ho : order ∈ validOrders) :
    ∃ k d, build_order_clause sort order = Except.ok (k, d) := by
  simp only [validSorts, validOrders, List.mem_cons, List.not_mem_nil,
    or_false] at hs ho
  rcases hs with rfl | rfl | rfl | rfl <;> rcases ho with rfl | rfl <;>
    exact ⟨_, _, rfl⟩

/-- The membership test of column_map agrees with validSorts. -/
theorem column_map_none (sort : String) (hs : sort ∉ validSorts) :
    column_map sort = none := by
  simp only [validSorts, List.mem_cons, List.not_mem_nil, or_false,
    not_or] at hs
  obtain ⟨h1, h2, h3, h4⟩ := hs
  unfold column_map
  simp [h1, h2, h3, h4]

/-- Claim C1: for every store and every valid (sort, order) pair, list_todos
succeeds and returns all rows surviving the filter, with every
completed=false row before every completed=true row and each
completed-group internally ordered by the requested column in the requested
direction. -/
theorem listTodos_ordering (sort order : String) (assignee : Option String)
    (store : List Todo) (hs : sort ∈ validSorts) (ho : order ∈ validOrders) :
    ∃ k d out, build_order_clause sort order = Except.ok (k, d) ∧
      list_todos sort order assignee store = Except.ok out ∧
      out.Perm (filterRows assignee store) ∧
      out.Pairwise (fun a b => a.completed = true → b.completed = true) ∧
      out.Pairwise (fun a b => a.completed = b.completed →
        fieldLE k d a b = true) := by
  obtain ⟨k, d, hok⟩ := build_ok_of_valid sort order hs ho
  refine ⟨k, d, (filterRows assignee store).mergeSort (rowLE k d), hok, ?_,
    (mergeSort_props k d _).1, (mergeSort_props k d _).2.1,
    (mergeSort_props k d _).2.2⟩
  unfold list_todos
  rw [hok]

/-- Witness for C1 at sort=id, order=desc on a concrete two-row store. -/
theorem listTodos_ordering_witness :
    ∃ k d out, build_order_clause "id" "desc" = Except.ok (k, d) ∧
      list_todos "id" "desc" none
        [⟨1, 5, "b", "Sato", true, false⟩, ⟨2, 3, "a", "Tanaka", false, false⟩]
        = Except.ok out ∧
      out.Perm (filterRows none
        [⟨1, 5, "b", "Sato", true, false⟩, ⟨2, 3, "a", "Tanaka", false, false⟩]) ∧
      out.Pairwise (fun a b => a.completed = true → b.completed = true) ∧
      out.Pairwise (fun a b => a.completed = b.completed →
        fieldLE k d a b = true) :=
  listTodos_ordering "id" "desc" none
    [⟨1, 5, "b", "Sato", true, false⟩, ⟨2, 3, "a", "Tanaka", false, false⟩]
    (by decide) (by decide)

/-- Claim C2 counterexample: when sort and order are both invalid, the code
rejects with the invalid-sort-field error, not the invalid-order error the
claim requires for any invalid order value. -/
theorem invalid_both_cex :
    list_todos "priority" "ascending" none [] =
      Except.error ApiError.invalidSortField ∧
    ¬ list_todos "priority" "ascending" none [] =
      Except.error ApiError.invalidOrder := by
  constructor
  · rfl
  · intro h
    rw [show list_todos "priority" "ascending" none [] =
      Except.error ApiError.invalidSortField from rfl] at h
    simp at h

/-- Claim C2 (amended): an invalid sort value fails with the
invalid-sort-field error whatever the order value is; an invalid order value
fails with the invalid-order error when the sort value is valid; in both
cases no result list is produced. -/
theorem invalid_params_rejected (sort order : String)
    (assignee : Option String) (store : List Todo) :
    (sort ∉ validSorts →
      list_todos sort order assignee store =
        Except.error ApiError.invalidSortField) ∧
    (sort ∈ validSorts → order ∉ validOrders →
      list_todos sort order assignee store =
        Except.error ApiError.invalidOrder) := by
  constructor
  · intro hs
    unfold list_todos build_order_clause
    rw [column_map_none sort hs]
  · intro hs ho
    simp only [validSorts, List.mem_cons, List.not_mem_nil, or_false] at hs
    simp only [validOrders, List.mem_cons, List.not_mem_nil, or_false,
      not_or] at ho
    obtain ⟨h1, h2⟩ := ho
    unfold list_todos build_order_clause
    rcases hs with rfl | rfl | rfl | rfl <;> simp [column_map, h1, h2]

/-- Witness for the amended C2 at concrete invalid inputs. -/
theorem invalid_params_rejected_witness :
    list_todos "priority" "asc" none [] =
      Except.error ApiError.invalidSortField ∧
    list_todos "id" "ascending" none [] =
      Except.error ApiError.invalidOrder :=
  ⟨(invalid_params_rejected "priority" "asc" none []).1 (by decide),
   (invalid_params_rejected "id" "ascending" none []).2 (by decide) (by decide)⟩

/-- Claim C3: with valid sort and order parameters, a present non-empty
assignee filter keeps exactly the rows whose assignee contains the string as
a case-sensitive substring, while an absent or empty filter excludes no
row. -/
theorem assignee_filter_semantics (sort order : String) (store : List Todo)
    (s : String) (hs : sort ∈ validSorts) (ho : order ∈ validOrders)
    (hne : s ≠ "") :
    (∃ out, list_todos sort order (some s) store = Except.ok out ∧
      out.Perm (store.filter (fun t => strContains t.assignee s))) ∧
    (∃ out, list_todos sort order none store = Except.ok out ∧
      out.Perm store) ∧
    (∃ out, list_todos sort order (some "") store = Except.ok out ∧
      out.Perm store) := by
  obtain ⟨k, d, hok⟩ := build_ok_of_valid sort order hs ho
  have hrun : ∀ a : Option String,
      list_todos sort order a store =
        Except.ok ((filterRows a store).mergeSort (rowLE k d)) := by
    intro a
    unfold list_todos
    rw [hok]
  have hne2 : (s == "") = false := by
    simpa using hne
  refine ⟨⟨_, hrun (some s), ?_⟩, ⟨_, hrun none, ?_⟩, ⟨_, hrun (some ""), ?_⟩⟩
  · have : filterRows (some s) store =
        store.filter (fun t => strContains t.assignee s) := by
      simp only [filterRows, hne2]
      simp
    rw [this] at *
    exact List.mergeSort_perm _ _
  · exact List.mergeSort_perm _ _
  · exact List.mergeSort_perm _ _

/-- Witness for C3 at a concrete store and the filter string Sato. -/
theorem assignee_filter_semantics_witness :
    (∃ out, list_todos "id" "asc" (some "Sato")
        [⟨1, 5, "b", "Sato", true, false⟩, ⟨2, 3, "a", "Tanaka", false, false⟩]
        = Except.ok out ∧
      out.Perm ([⟨1, 5, "b", "Sato", true, false⟩,
        ⟨2, 3, "a", "Tanaka", false, false⟩].filter
          (fun t => strContains t.assignee "Sato"))) ∧
    (∃ out, list_todos "id" "asc" none
        [⟨1, 5, "b", "Sato", true, false⟩, ⟨2, 3, "a", "Tanaka", false, false⟩]
        = Except.ok out ∧
      out.Perm [⟨1, 5, "b", "Sato", true, false⟩,
        ⟨2, 3, "a", "Tanaka", false, false⟩]) ∧
    (∃ out, list_todos "id" "asc" (some "")
        [⟨1, 5, "b", "Sato", true, false⟩, ⟨2, 3, "a", "Tanaka", false, false⟩]
        = Except.ok out ∧
      out.Perm [⟨1, 5, "b", "Sato", true, false⟩,
        ⟨2, 3, "a", "Tanaka", false, false⟩]) :=
  assignee_filter_semantics "id" "asc"
    [⟨1, 5, "b", "Sato", true, false⟩, ⟨2, 3, "a", "Tanaka", false, false⟩]
    "Sato" (by decide) (by decide) (by decide)

/-- Claim C10: calling list_todos with no explicit parameters equals calling
it with sort=due_date, order=asc and no assignee filter, and this always
succeeds, so the defaults can never trigger a validation error. -/
theorem defaults_valid (store : List Todo) :
    list_todos_defaults store = list_todos "due_date" "asc" none store ∧
    list_todos_defaults store =
      Except.ok (store.mergeSort (rowLE SortKey.dueDate SortDir.asc)) :=
  ⟨rfl, rfl⟩

/-- Claim C4 (code evaluation): favorite is not among the attributes mapped
by models.py, so Todo(**payload.model_dump()) raises TypeError and
create_todo can never persist a record, contradicting the documented
favorite field contract. -/
theorem create_always_typeErrors (p : TodoPayload) (nextId : Nat)
    (store : List Todo) :
    todoModelColumns.contains "favorite" = false ∧
    todoCtorAccepts payloadKeys = false ∧
    create_todo p nextId store = Except.error ApiError.typeError :=
  ⟨rfl, rfl, rfl⟩

/-- Claim C5 (code evaluation): on an empty store the seeder reaches the
record constructor, whose keyword set includes favorite, and fails with
TypeError instead of inserting 100 records. -/
theorem seed_empty_typeErrors (today : Int) (offsets : Nat → Int) :
    seed_todos today offsets [] = Except.error ApiError.typeError ∧
    seedGuard [] = false :=
  ⟨rfl, rfl⟩

/-- Claim C6: on any non-empty store the seeder returns the store unchanged,
and its emptiness decision reads only the first row of the store (the
limit-1 probe), not any count of the whole store. -/
theorem seed_nonempty_noop (today : Int) (offsets : Nat → Int)
    (store : List Todo) (h : store ≠ []) :
    seed_todos today offsets store = Except.ok store ∧
    (∀ other : List Todo, other.head? = store.head? →
      seedGuard other = seedGuard store) := by
  constructor
  · unfold seed_todos seedGuard
    cases store with
    | nil => exact absurd rfl h
    | cons a t => rfl
  · intro other hh
    unfold seedGuard
    cases other <;> cases store <;> simp_all

/-- Witness for C6 at a concrete one-row store. -/
theorem seed_nonempty_noop_witness :
    seed_todos 0 (fun _ => 0) [⟨1, 0, "t", "a", false, false⟩] =
      Except.ok [⟨1, 0, "t", "a", false, false⟩] ∧
    (∀ other : List Todo,
      other.head? = ([⟨1, 0, "t", "a", false, false⟩] : List Todo).head? →
      seedGuard other = seedGuard [⟨1, 0, "t", "a", false, false⟩]) :=
  seed_nonempty_noop 0 (fun _ => 0) [⟨1, 0, "t", "a", false, false⟩]
    (by simp)

/-- Each ensured column is present after ensure_column runs. -/
theorem ensure_column_mem (n : String) (st : TableState) :
    (ensure_column n st).columns.contains n = true := by
  unfold ensure_column
  by_cases h : st.columns.contains n = true
  · rw [if_pos h]
    exact h
  · rw [if_neg h, addBoolColumn]
    simp

/-- ensure_column never removes a column that was already present. -/
theorem ensure_column_mono (n m : String) (st : TableState)
    (h : st.columns.contains m = true) :
    (ensure_column n st).columns.contains m = true := by
  unfold ensure_column
  by_cases hc : st.columns.contains n = true
  · rw [if_pos hc]
    exact h
  · rw [if_neg hc, addBoolColumn]
    simp only [List.contains_eq_any_beq] at h ⊢
    simp [h]

/-- ensure_column does nothing when the column is already present. -/
theorem ensure_column_noop (n : String) (st : TableState)
    (h : st.columns.contains n = true) : ensure_column n st = st := by
  unfold ensure_column
  rw [if_pos h]

/-- Claim C7: the schema bootstrap is idempotent (a second run changes
nothing), each of the completed and favorite columns is left alone when
present and added only when absent, and existing row data is never altered:
every row of the result is the original row extended by the default cells of
the columns that were missing. -/
theorem bootstrap_idempotent (st : TableState) :
    bootstrapSchema (bootstrapSchema st) = bootstrapSchema st ∧
    (st.columns.contains "completed" = true →
      ensure_completed_column st = st) ∧
    (st.columns.contains "favorite" = true →
      ensure_favorite_column st = st) ∧
    (bootstrapSchema st).rows = st.rows.map (fun r => r ++ bootExt st) := by
  refine ⟨?_, fun h => ensure_column_noop _ st h,
    fun h => ensure_column_noop _ st h, ?_⟩
  · have hc : (bootstrapSchema st).columns.contains "completed" = true :=
      ensure_column_mono "favorite" "completed" (ensure_completed_column st)
        (ensure_column_mem "completed" st)
    have hf : (bootstrapSchema st).columns.contains "favorite" = true :=
      ensure_column_mem "favorite" (ensure_completed_column st)
    show ensure_favorite_column (ensure_completed_column (bootstrapSchema st))
      = bootstrapSchema st
    unfold ensure_favorite_column ensure_completed_column
    rw [ensure_column_noop "completed" (bootstrapSchema st) hc,
      ensure_column_noop "favorite" (bootstrapSchema st) hf]
  · by_cases hc : st.columns.contains "completed" = true <;>
      by_cases hf : st.columns.contains "favorite" = true <;>
      simp_all [bootstrapSchema, ensure_favorite_column,
        ensure_completed_column, ensure_column, addBoolColumn, bootExt,
        List.map_map, Function.comp]

/-- Witness for C7: a base-schema store with one row and neither boolean
column, and a fully-bootstrapped store with both. -/
theorem bootstrap_idempotent_witness :
    bootstrapSchema (bootstrapSchema
      ⟨["id", "due_date", "title", "assignee"], [[("id", SqlVal.i 1)]]⟩) =
      bootstrapSchema
        ⟨["id", "due_date", "title", "assignee"], [[("id", SqlVal.i 1)]]⟩ ∧
    ensure_completed_column
        ⟨["id", "completed", "favorite"], [[("id", SqlVal.i 1)]]⟩ =
      ⟨["id", "completed", "favorite"], [[("id", SqlVal.i 1)]]⟩ ∧
    ensure_favorite_column
        ⟨["id", "completed", "favorite"], [[("id", SqlVal.i 1)]]⟩ =
      ⟨["id", "completed", "favorite"], [[("id", SqlVal.i 1)]]⟩ :=
  ⟨(bootstrap_idempotent
      ⟨["id", "due_date", "title", "assignee"], [[("id", SqlVal.i 1)]]⟩).1,
   (bootstrap_idempotent
      ⟨["id", "completed", "favorite"], [[("id", SqlVal.i 1)]]⟩).2.1
     (by decide),
   (bootstrap_idempotent
      ⟨["id", "completed", "favorite"], [[("id", SqlVal.i 1)]]⟩).2.2.1
     (by decide)⟩

/-- Claim C8 (code evaluation): updating an existing record replaces the
four mapped fields and echoes the payload favorite in the response, but the
stored row keeps its old favorite value because models.py maps no favorite
attribute; a non-existent id fails with the not-found error. -/
theorem update_favorite_not_persisted :
    update_todo 1 ⟨5, "t2", "a2", true, true⟩
        [⟨1, 0, "t1", "a1", false, false⟩] =
      Except.ok (⟨1, 5, "t2", "a2", true, true⟩,
        [⟨1, 5, "t2", "a2", true, false⟩]) ∧
    serializeOut ⟨1, 5, "t2", "a2", true, false⟩ =
      ⟨1, 5, "t2", "a2", true, false⟩ ∧
    update_todo 2 ⟨5, "t2", "a2", true, true⟩
        [⟨1, 0, "t1", "a1", false, false⟩] =
      Except.error ApiError.notFound :=
  ⟨rfl, rfl, rfl⟩

/-- After erasing the first row with the given id from a store whose ids are
unique, no row with that id remains. -/
theorem find_eraseP_none (todo_id : Nat) (store : List Todo)
    (hnd : (store.map Todo.id).Nodup) :
    (store.eraseP (fun t => t.id == todo_id)).find?
      (fun t => t.id == todo_id) = none := by
  induction store with
  | nil => rfl
  | cons a t ih =>
      simp only [List.map_cons, List.nodup_cons] at hnd
      obtain ⟨hna, hnt⟩ := hnd
      by_cases ha : (a.id == todo_id) = true
      · rw [List.eraseP_cons_of_pos (p := fun x : Todo => x.id == todo_id) ha,
          List.find?_eq_none]
        intro x hx hpx
        apply hna
        have hax : a.id = x.id := by
          have h1 : a.id = todo_id := by simpa using ha
          have h2 : x.id = todo_id := by simpa using hpx
          rw [h1, h2]
        rw [hax]
        exact List.mem_map_of_mem _ hx
      · rw [List.eraseP_cons_of_neg (p := fun x : Todo => x.id == todo_id) ha,
          List.find?_cons_of_neg (p := fun x : Todo => x.id == todo_id) _ ha]
        exact ih hnt

/-- Claim C9: deleting an absent id fails with the not-found error and
produces no new store state; deleting a present id (ids being unique, as the
primary key guarantees) succeeds, removing that row so that a subsequent
read of the same id finds nothing. -/
theorem delete_semantics (todo_id : Nat) (store : List Todo) :
    (get_todo todo_id store = none →
      delete_todo todo_id store = Except.error ApiError.notFound) ∧
    ((∃ t, get_todo todo_id store = some t) → (store.map Todo.id).Nodup →
      delete_todo todo_id store =
        Except.ok (store.eraseP (fun t => t.id == todo_id)) ∧
      get_todo todo_id (store.eraseP (fun t => t.id == todo_id)) = none) := by
  constructor
  · intro h
    unfold delete_todo
    rw [h]
  · rintro ⟨t, ht⟩ hnd
    constructor
    · unfold delete_todo
      rw [ht]
    · exact find_eraseP_none todo_id store hnd

/-- Witness for C9 at a concrete one-row store: deleting id 2 fails, while
deleting id 1 removes the row and a repeated read finds nothing. -/
theorem delete_semantics_witness :
    delete_todo 2 [⟨1, 0, "t", "a", false, false⟩] =
      Except.error ApiError.notFound ∧
    delete_todo 1 [⟨1, 0, "t", "a", false, false⟩] =
      Except.ok (([⟨1, 0, "t", "a", false, false⟩] : List Todo).eraseP
        (fun t => t.id == 1)) ∧
    get_todo 1 (([⟨1, 0, "t", "a", false, false⟩] : List Todo).eraseP
      (fun t => t.id == 1)) = none :=
  ⟨(delete_semantics 2 [⟨1, 0, "t", "a", false, false⟩]).1 rfl,
   ((delete_semantics 1 [⟨1, 0, "t", "a", false, false⟩]).2
     ⟨_, rfl⟩ (by decide)).1,
   ((delete_semantics 1 [⟨1, 0, "t", "a", false, false⟩]).2
     ⟨_, rfl⟩ (by decide)).2⟩

end JustTodo
